import Mathlib

/-
Verification of the clarify-svc supervisor/poller against its design notes.

The definitions below are shallow embeddings of the Go sources:
  src/unnamed/part_000                (service variant: close-based stop signal)
  src/cmd/clarify/clarifysvc.go       (service variant: send-based stop signal)
  src/cmd/consul/clarifyconsulsvc.go  (child-process supervisor)
  src/cmd/clarify/clarifysvc_all.go   (two-child supervisor)
Remote calls (client.FindJob, client.HostID, client.Drain, client.SubmitJob)
and os.Stat are external collaborators; each is modelled by the value it
returns on the call in question, passed in as an argument.
-/

namespace ClarifySvc

/-- Expected HTTP success status, net/http StatusOK. -/
def statusOK : Nat := 200

/-- A scheduler node as returned by client.HostID; the fields the programs
read are ID, Name and Drain. -/
structure Host where
  id : String
  name : String
  drain : Bool
deriving DecidableEq, Repr

/-- Result of a client.FindJob call: success, or a not-found error. -/
inductive FindJobResult where
  | ok
  | err
deriving DecidableEq, Repr

/-- Result of a client.HostID call: a transport or lookup error, or the host
record. -/
inductive HostIDResult where
  | err
  | ok (h : Host)
deriving DecidableEq, Repr

/-- Observable effects of the pollJob goroutine on the run so far:
whether the ticker is still running (ticker.Stop sets it to false), how many
times the terminal stop signal has been fired (a close of, or send on, the
stopped channel), and how many transient warnings have been logged. -/
structure PollState where
  tickerRunning : Bool
  stopFires : Nat
  warnings : Nat
deriving DecidableEq, Repr

/-- The state at the start of a pollJob run: ticker running, no fire, no
warning. -/
def pollInit : PollState := { tickerRunning := true, stopFires := 0, warnings := 0 }

/-- One tick of pollJob in src/unnamed/part_000 (lines 87 to 100).
First the job check: if client.FindJob errs, log an error, ticker.Stop and
close(stopped); the code then falls through to the node check in the same
tick.  Then the node check: if client.HostID errs, log a warning only; else
if the host has Drain set, log, ticker.Stop and close(stopped). -/
def pollTickPart000 (fj : FindJobResult) (hid : HostIDResult) (s : PollState) : PollState :=
  let s1 :=
    match fj with
    | .err => { s with tickerRunning := false, stopFires := s.stopFires + 1 }
    | .ok => s
  match hid with
  | .err => { s1 with warnings := s1.warnings + 1 }
  | .ok n =>
      if n.drain then { s1 with tickerRunning := false, stopFires := s1.stopFires + 1 }
      else s1

/-- One tick of pollJob in src/cmd/clarify/clarifysvc.go (lines 88 to 98).
First the job check: if client.FindJob errs, ticker.Stop and send on stopped.
Then the node check: if client.HostID errs, the code logs node drained,
ticker.Stop and sends on stopped; a successful lookup is discarded and its
Drain field is never inspected. -/
def pollTickClarifysvc (fj : FindJobResult) (hid : HostIDResult) (s : PollState) : PollState :=
  let s1 :=
    match fj with
    | .err => { s with tickerRunning := false, stopFires := s.stopFires + 1 }
    | .ok => s
  match hid with
  | .err => { s1 with tickerRunning := false, stopFires := s1.stopFires + 1 }
  | .ok _ => s1

/-- Outcome of executing one iteration of a Go for-select loop body: either
the body falls through and the loop continues with a new state, or a return
statement exits the goroutine with a value. -/
inductive LoopStep (σ ρ : Type) where
  | continues (s : σ)
  | returns (r : ρ)
deriving DecidableEq

/-- An event the pollJob select in clarifysvc.go can receive: a ticker tick
carrying the results of the two remote calls made on that tick, or a value
on the done channel. -/
inductive PollEvent where
  | tick (fj : FindJobResult) (hid : HostIDResult)
  | done
deriving DecidableEq

/-- The loop body of pollJob in clarifysvc.go (lines 86 to 102): the tick
case runs the two checks; the done case calls ticker.Stop.  Neither case
contains a return statement, so every branch continues the loop. -/
def pollBodyClarifysvc : PollEvent → PollState → LoopStep PollState Unit
  | .tick fj hid, s => .continues (pollTickClarifysvc fj hid s)
  | .done, s => .continues { s with tickerRunning := false }

/-- The loop body of pollJob in part_000 (lines 85 to 102): the select has a
single tick case and no cancellation channel, and the case contains no
return statement. -/
def pollBodyPart000 (fj : FindJobResult) (hid : HostIDResult) (s : PollState) :
    LoopStep PollState Unit :=
  LoopStep.continues (pollTickPart000 fj hid s)

/-- A signal the final select of run() in clarifysvc.go can receive: the
terminal stopped signal from pollJob, or the external stop request on
p.exit. -/
inductive RunSignal where
  | stopped
  | exitReq
deriving DecidableEq

/-- What the coordinator does on the signal it receives: call os.Exit with a
code, close the done channel of the poller, or invoke p.svc.Stop (the
service stop sequence). -/
inductive CoordAction where
  | exitProcess (code : Nat)
  | closeDone
  | svcStop
deriving DecidableEq

/-- The select at the end of run() in clarifysvc.go (lines 74 to 79): the
stopped case calls os.Exit(1); the p.exit case closes done. -/
def runSelectClarifysvc : RunSignal → CoordAction
  | .stopped => .exitProcess 1
  | .exitReq => .closeDone

/-- The select at the end of run() in part_000 (lines 75 to 78): its only
case is the terminal stopped signal, and the handler calls p.svc.Stop(). -/
def runSelectPart000 : CoordAction := CoordAction.svcStop

/-- Result of the p.node() host lookup inside Stop: failure (in which case
node() logs and calls os.Exit(1)) or the host record. -/
inductive NodeLookup where
  | err
  | ok (h : Host)
deriving DecidableEq

/-- Result of a client.Drain call: a transport error, or a status code. -/
inductive DrainResult where
  | err
  | ok (status : Nat)
deriving DecidableEq

/-- Observable effects of Stop in part_000: whether the exit channel was
signalled, how many Drain calls were issued, whether Stop returned an error
value, and whether os.Exit was called. -/
structure StopOutcome where
  exitSignalled : Bool
  drainCalls : Nat
  returnsError : Bool
  exitCalled : Bool
deriving DecidableEq, Repr

/-- Stop in part_000 (lines 35 to 49): close(p.exit); node := p.node(),
which calls os.Exit(1) when the host lookup fails; then one
client.Drain(node.ID, true) call; on a transport error or a status other
than StatusOK, log and return an error; otherwise return nil.  No branch
retries the drain call and no drain-failure branch calls os.Exit. -/
def stopPart000 (nl : NodeLookup) (dr : DrainResult) : StopOutcome :=
  match nl with
  | .err =>
      { exitSignalled := true, drainCalls := 0, returnsError := false, exitCalled := true }
  | .ok _ =>
      match dr with
      | .err =>
          { exitSignalled := true, drainCalls := 1, returnsError := true, exitCalled := false }
      | .ok s =>
          if s ≠ statusOK then
            { exitSignalled := true, drainCalls := 1, returnsError := true, exitCalled := false }
          else
            { exitSignalled := true, drainCalls := 1, returnsError := false, exitCalled := false }

/-- The strings.Join function from the Go standard library as used here:
concatenate the elements with the separator between consecutive elements. -/
def stringsJoin (elems : List String) (sep : String) : String :=
  match elems with
  | [] => ""
  | x :: xs => xs.foldl (fun acc s => acc ++ sep ++ s) x

/-- Result of a client.SubmitJob call: a transport error, or a status code. -/
inductive SubmitResult where
  | err
  | ok (status : Nat)
deriving DecidableEq

/-- The job-spec path submitted by launchClarify (part_000 line 108,
clarifysvc.go line 108): strings.Join of the install root and the launch
filename with the path separator. -/
def launchClarifyPath (clarify launch sep : String) : String :=
  stringsJoin [clarify, launch] sep

/-- The result check of launchClarify (lines 107 to 116 in both variants):
a transport error is returned as an error; a status other than StatusOK is
returned as an error; only StatusOK yields success. -/
def launchClarifyCheck (sr : SubmitResult) : Except String Unit :=
  match sr with
  | .err => .error "submit error"
  | .ok s => if s ≠ statusOK then .error "http status" else .ok ()

/-- How the launching branch of run() ends (part_000 lines 65 to 73,
clarifysvc.go lines 64 to 71): on an error from launchClarify, log and
os.Exit(1); otherwise fall through to polling. -/
inductive LaunchOutcome where
  | proceed
  | exitNonZero
deriving DecidableEq

/-- The launching branch of run(): applies the launchClarify check and maps
an error to os.Exit(1) and success to falling through. -/
def runLaunchBranch (sr : SubmitResult) : LaunchOutcome :=
  match launchClarifyCheck sr with
  | .error _ => .exitNonZero
  | .ok _ => .proceed

/-- Result of one os.Stat call on the install path: the path is present,
os.IsNotExist holds of the error, or the call failed with some other
error. -/
inductive StatResult where
  | present
  | notExist
  | statError
deriving DecidableEq

/-- The guard used by waitForInstall on every check (part_000 line 145,
clarifysvc.go line 147): not os.IsNotExist(err).  It is true when the path
is present and also when os.Stat failed with an error other than
not-exist. -/
def statNotMissing : StatResult → Bool
  | .notExist => false
  | .present => true
  | .statError => true

/-- An event the waitForInstall polling goroutine can receive: a ticker tick
carrying the os.Stat result of that tick, or the external cancellation
signal on the exit channel. -/
inductive WaitEvent where
  | tick (st : StatResult)
  | cancel
deriving DecidableEq

/-- The loop body of the waitForInstall goroutine (part_000 lines 153 to
167): a tick whose stat passes the guard sends true and returns; a failing
tick logs a warning and continues; the cancellation case sends false and
returns. -/
def waitBody : WaitEvent → LoopStep Unit Bool
  | .tick st => if statNotMissing st then .returns true else .continues ()
  | .cancel => .returns false

/-- Running the waitForInstall goroutine over a queue of events: the first
pair component is the value it sends on the found channel (none if the
events run out while it is still waiting), the second is the number of
events it consumed before returning. -/
def waitLoopRun : List WaitEvent → Option Bool × Nat
  | [] => (none, 0)
  | e :: rest =>
      match waitBody e with
      | .returns v => (some v, 1)
      | .continues _ =>
          let r := waitLoopRun rest
          (r.1, r.2 + 1)

/-- Observable outcome of a waitForInstall call: the boolean it returns
(none if it blocks forever), the number of events the polling goroutine
consumed, and whether the polling goroutine was started at all. -/
structure WaitResult where
  result : Option Bool
  eventsConsumed : Nat
  pollTaskStarted : Bool
deriving DecidableEq, Repr

/-- waitForInstall (part_000 lines 144 to 173, clarifysvc.go lines 146 to
175): if the initial os.Stat passes the not-IsNotExist guard, return true
immediately without starting the goroutine; otherwise start the polling
goroutine and return the value it sends. -/
def waitForInstallModel (initialStat : StatResult) (events : List WaitEvent) : WaitResult :=
  if statNotMissing initialStat then
    { result := some true, eventsConsumed := 0, pollTaskStarted := false }
  else
    let r := waitLoopRun events
    { result := r.1, eventsConsumed := r.2, pollTaskStarted := true }

/-- The error value produced by cmd.Wait for the supervised child: an
exec.ExitError (abnormal termination) or no error. -/
inductive WaitErr where
  | exitError
  | noError
deriving DecidableEq

/-- Exit classifications of the supervised child process named by the design
notes. -/
inductive ExitClass where
  | exitedGraceful
  | exitedWithError
  | killed
deriving DecidableEq

/-- The classification applied by run() to the cmd.Wait error (both
supervisor variants): an exec.ExitError is reported as an error exit, any
other value as a graceful exit. -/
def classifyExit : WaitErr → ExitClass
  | .exitError => .exitedWithError
  | .noError => .exitedGraceful

/-- run() in clarifyconsulsvc.go (lines 54 to 69): select on the done
channel from cmd.Wait; an exec.ExitError logs the error classification and
calls os.Exit(1); any other value logs the graceful classification and
calls os.Exit(0).  Returns the list of reported classifications and the
process exit code. -/
def consulRun (e : WaitErr) : List ExitClass × Nat :=
  match e with
  | .exitError => ([ExitClass.exitedWithError], 1)
  | .noError => ([ExitClass.exitedGraceful], 0)

/-- The full supervised run in clarifyconsulsvc.go.  The time a stop request
arrives and the time the child exits are part of the environment, but run()
only ever observes the error value returned by cmd.Wait: Stop() (lines 38
to 52) signals the child process and reads no shared state that run()
consults, and run() reads no stop state when classifying, so the two time
arguments do not occur on the right-hand side. -/
def consulSupervise (stopAt : Option Nat) (exitAt : Nat) (e : WaitErr) : List ExitClass × Nat :=
  consulRun e

/-- run() in clarifysvc_all.go (lines 245 to 260): select once on the shared
done channel for whichever child exits first, and classify that exit by its
error type; no os.Exit call and no second report. -/
def clarifyAllRun (firstErr : WaitErr) : List ExitClass :=
  [classifyExit firstErr]

/-- Claim C1 (refuted by evaluation): the claim states that the pollJob
terminal stop signal is fired at most once per run, even when both
definitive conditions hold within the same tick, and that the second-fire
branch is unreachable.  On a single tick of the part_000 pollJob in which
client.FindJob reports not-found and client.HostID succeeds with a drained
node, the close(stopped) statement is executed twice, which in Go is a
close of an already closed channel and panics; with only one definitive
condition present the signal fires exactly once. -/
theorem pollJob_double_fire_eval :
    (pollTickPart000 FindJobResult.err
        (HostIDResult.ok { id := "n1", name := "node1", drain := true }) pollInit).stopFires = 2 ∧
    (pollTickPart000 FindJobResult.err HostIDResult.err pollInit).stopFires = 1 ∧
    (pollTickPart000 FindJobResult.ok
        (HostIDResult.ok { id := "n1", name := "node1", drain := true }) pollInit).stopFires = 1 :=
  ⟨rfl, rfl, rfl⟩

/-- Claim C2 (refuted on the clarifysvc.go variant by evaluation): the claim
states that a HostID lookup error is transient, logged as a warning with
ticking continuing, and that only a successful lookup reporting a drained
node fires the terminal signal.  The clarifysvc.go pollJob instead fires
the terminal signal and stops its ticker on a lookup error; the part_000
pollJob implements the claimed behaviour: a lookup-error tick leaves the
ticker running, fires nothing and logs a warning, and a later tick still
runs both checks and fires on a drained node. -/
theorem pollJob_lookup_error_eval :
    (pollTickClarifysvc FindJobResult.ok HostIDResult.err pollInit).stopFires = 1 ∧
    (pollTickClarifysvc FindJobResult.ok HostIDResult.err pollInit).tickerRunning = false ∧
    (pollTickPart000 FindJobResult.ok HostIDResult.err pollInit).stopFires = 0 ∧
    (pollTickPart000 FindJobResult.ok HostIDResult.err pollInit).tickerRunning = true ∧
    (pollTickPart000 FindJobResult.ok HostIDResult.err pollInit).warnings = 1 ∧
    (pollTickPart000 FindJobResult.ok
        (HostIDResult.ok { id := "n1", name := "node1", drain := true })
        (pollTickPart000 FindJobResult.ok HostIDResult.err pollInit)).stopFires = 1 :=
  ⟨rfl, rfl, rfl, rfl, rfl, rfl⟩

/-- Claim C3, counterexample: the claim states that when a stop request
strictly precedes the spontaneous process exit, the reported classification
is the stopped-by-request classification and never an error or graceful
exit.  With a stop requested at time 0 and the child exiting at time 1 with
an exec.ExitError, the clarifyconsulsvc.go run reports the error-exit
classification, and with no wait error it reports the graceful
classification; neither is the killed classification. -/
theorem supervisor_killed_counterexample :
    (0 : Nat) < 1 ∧
    (consulSupervise (some 0) 1 WaitErr.exitError).1 = [ExitClass.exitedWithError] ∧
    ExitClass.exitedWithError ≠ ExitClass.killed ∧
    (consulSupervise (some 0) 1 WaitErr.noError).1 = [ExitClass.exitedGraceful] ∧
    ExitClass.exitedGraceful ≠ ExitClass.killed := by
  refine ⟨by decide, rfl, by decide, rfl, by decide⟩

/-- Claim C3, amended: for every supervised child process run, the
clarifyconsulsvc.go supervisor reports exactly one exit classification, and
that classification is computed solely from the error value returned by
cmd.Wait — exec.ExitError is reported as an error exit and any other value
as a graceful exit — independently of whether and when a stop request was
delivered; the clarifysvc_all.go variant reports the same single
classification for whichever child exits first.  There is no distinct
stopped-by-request classification in the code. -/
theorem supervisor_single_classification (stopAt : Option Nat) (exitAt : Nat) (e : WaitErr) :
    (consulSupervise stopAt exitAt e).1 = [classifyExit e] ∧
    (consulSupervise stopAt exitAt e).1.length = 1 ∧
    clarifyAllRun e = [classifyExit e] := by
  cases e <;> exact ⟨rfl, rfl, rfl⟩

/-- Claim C4, counterexample: the claim states that whenever the terminal
signal fires during polling, the coordinator exits the process with a
non-zero status without entering the drain path.  In the part_000 variant
the select on the terminal signal instead invokes p.svc.Stop, and that stop
sequence issues the drain-enable call and does not call os.Exit. -/
theorem terminal_signal_part000_counterexample :
    runSelectPart000 ≠ CoordAction.exitProcess 1 ∧
    runSelectPart000 = CoordAction.svcStop ∧
    (stopPart000 (NodeLookup.ok { id := "n1", name := "node1", drain := false })
        (DrainResult.ok 200)).drainCalls = 1 ∧
    (stopPart000 (NodeLookup.ok { id := "n1", name := "node1", drain := false })
        (DrainResult.ok 200)).exitCalled = false := by
  refine ⟨by decide, rfl, rfl, rfl⟩

/-- Claim C4, amended: in the clarifysvc.go variant, when the terminal
signal fires during polling the coordinator calls os.Exit(1) and does not
enter the service-stop (drain) path, and the external stop request instead
closes the done channel of the poller; in the part_000 variant the terminal
signal instead invokes the service stop sequence, which performs the
drain-enable call, and the run does not exit with a non-zero status. -/
theorem terminal_signal_paths :
    runSelectClarifysvc RunSignal.stopped = CoordAction.exitProcess 1 ∧
    runSelectClarifysvc RunSignal.stopped ≠ CoordAction.svcStop ∧
    runSelectClarifysvc RunSignal.exitReq = CoordAction.closeDone ∧
    runSelectPart000 = CoordAction.svcStop := by
  refine ⟨rfl, by decide, rfl, rfl⟩

/-- Claim C5: during the coordinated shutdown Stop, when the host lookup
succeeded and the Drain call either errs or returns a status other than the
expected success status, the failure is reported as an error, the drain
call is issued exactly once (no retry), and os.Exit is not called, so the
shutdown still completes. -/
theorem stop_drain_best_effort (h : Host) (dr : DrainResult)
    (hfail : dr = DrainResult.err ∨ ∃ s, dr = DrainResult.ok s ∧ s ≠ statusOK) :
    (stopPart000 (NodeLookup.ok h) dr).returnsError = true ∧
    (stopPart000 (NodeLookup.ok h) dr).drainCalls = 1 ∧
    (stopPart000 (NodeLookup.ok h) dr).exitCalled = false := by
  rcases hfail with hE | ⟨s, hS, hne⟩
  · subst hE
    exact ⟨rfl, rfl, rfl⟩
  · subst hS
    simp [stopPart000, if_pos hne]

/-- Witness for claim C5 at a concrete input: the drain call returning
status 500 after a successful host lookup. -/
theorem stop_drain_best_effort_witness :
    (stopPart000 (NodeLookup.ok { id := "n1", name := "node1", drain := false })
        (DrainResult.ok 500)).returnsError = true ∧
    (stopPart000 (NodeLookup.ok { id := "n1", name := "node1", drain := false })
        (DrainResult.ok 500)).drainCalls = 1 ∧
    (stopPart000 (NodeLookup.ok { id := "n1", name := "node1", drain := false })
        (DrainResult.ok 500)).exitCalled = false :=
  stop_drain_best_effort { id := "n1", name := "node1", drain := false }
    (DrainResult.ok 500) (Or.inr ⟨500, rfl, by decide⟩)

/-- Claim C6: the launching branch submits the job with a path equal to the
install root joined with the launch-spec filename by the separator, and the
branch proceeds past submission exactly when the submission reported the
expected success status; every transport error or other status leads to
os.Exit(1), never to silently continuing. -/
theorem launch_requires_success (c l sep : String) (sr : SubmitResult) :
    launchClarifyPath c l sep = c ++ sep ++ l ∧
    (runLaunchBranch sr = LaunchOutcome.proceed ↔ sr = SubmitResult.ok statusOK) ∧
    (runLaunchBranch sr = LaunchOutcome.proceed ∨ runLaunchBranch sr = LaunchOutcome.exitNonZero) := by
  refine ⟨rfl, ?_, ?_⟩
  · cases sr with
    | err => simp [runLaunchBranch, launchClarifyCheck]
    | ok s =>
        by_cases hs : s = statusOK
        · subst hs
          simp [runLaunchBranch, launchClarifyCheck]
        · simp [runLaunchBranch, launchClarifyCheck, hs]
  · cases hr : runLaunchBranch sr
    · exact Or.inl rfl
    · exact Or.inr rfl

/-- Claim C7: for a precondition path that is present before the first
check, waitForInstall returns true immediately, with zero events consumed
and without starting the polling goroutine, whatever events would have
followed. -/
theorem waitForInstall_immediate (events : List WaitEvent) :
    waitForInstallModel StatResult.present events =
      { result := some true, eventsConsumed := 0, pollTaskStarted := false } := by
  simp [waitForInstallModel, statNotMissing]

/-- Helper for claim C8: the waitForInstall goroutine, given ticks on which
the precondition is absent followed by the cancellation signal, sends false
and returns at the cancellation, consuming no later event. -/
theorem waitLoopRun_cancel (pre rest : List WaitEvent)
    (hpre : ∀ e ∈ pre, e = WaitEvent.tick StatResult.notExist) :
    waitLoopRun (pre ++ WaitEvent.cancel :: rest) = (some false, pre.length + 1) := by
  induction pre with
  | nil => rfl
  | cons e tl ih =>
      have he : e = WaitEvent.tick StatResult.notExist := hpre e (by simp)
      subst he
      have htl : ∀ x ∈ tl, x = WaitEvent.tick StatResult.notExist :=
        fun x hx => hpre x (by simp [hx])
      simp [waitLoopRun, waitBody, statNotMissing, ih htl]

/-- Claim C8: for every cancellation delivered before the precondition
appears — the initial check fails and every tick before the cancellation
finds the path absent — waitForInstall returns false, and its polling
goroutine returns at the cancellation event, consuming exactly the failing
ticks plus the cancellation and nothing after it. -/
theorem waitForInstall_cancel (pre rest : List WaitEvent)
    (hpre : ∀ e ∈ pre, e = WaitEvent.tick StatResult.notExist) :
    waitForInstallModel StatResult.notExist (pre ++ WaitEvent.cancel :: rest) =
      { result := some false, eventsConsumed := pre.length + 1, pollTaskStarted := true } := by
  simp [waitForInstallModel, statNotMissing, waitLoopRun_cancel pre rest hpre]

/-- Witness for claim C8 at a concrete input: one failing tick, then the
cancellation, then a tick that would have found the path present. -/
theorem waitForInstall_cancel_witness :
    waitForInstallModel StatResult.notExist
      ([WaitEvent.tick StatResult.notExist] ++
        WaitEvent.cancel :: [WaitEvent.tick StatResult.present]) =
      { result := some false, eventsConsumed := 2, pollTaskStarted := true } :=
  waitForInstall_cancel [WaitEvent.tick StatResult.notExist]
    [WaitEvent.tick StatResult.present] (by intro e he; simpa using he)

/-- Claim C9: when the initial os.Stat fails with an error other than
not-exist, waitForInstall passes the not-IsNotExist guard and returns true
immediately without polling, even though that result is distinct from the
path being confirmed present; only a definite not-exist result fails the
guard. -/
theorem waitForInstall_stat_error (events : List WaitEvent) :
    waitForInstallModel StatResult.statError events =
      { result := some true, eventsConsumed := 0, pollTaskStarted := false } ∧
    statNotMissing StatResult.statError = true ∧
    StatResult.statError ≠ StatResult.present ∧
    statNotMissing StatResult.notExist = false := by
  refine ⟨by simp [waitForInstallModel, statNotMissing], rfl, by decide, rfl⟩

/-- Claim C10: the pollJob goroutine never terminates on its own: in the
clarifysvc.go variant every loop-body outcome, including the done
(cancellation) case, continues the loop — the done case merely stops the
ticker — and in the part_000 variant, whose select has no cancellation
case, every tick outcome continues the loop as well; no branch of either
body returns. -/
theorem pollJob_loop_never_returns :
    (∀ ev s, ∃ t, pollBodyClarifysvc ev s = LoopStep.continues t) ∧
    (∀ fj hid s, ∃ t, pollBodyPart000 fj hid s = LoopStep.continues t) ∧
    (∀ s, pollBodyClarifysvc PollEvent.done s =
      LoopStep.continues { s with tickerRunning := false }) := by
  refine ⟨?_, ?_, ?_⟩
  · intro ev s
    cases ev <;> exact ⟨_, rfl⟩
  · intro fj hid s
    exact ⟨_, rfl⟩
  · intro s
    rfl

end ClarifySvc
